import Mathlib

/-!
Shallow embedding of the NESTConnectionApp selection editor
(`src/javascript/static/js/selectionBox.js` and
`src/javascript/static/js/controls.js`).

Coordinates are modelled as rationals.  Scene-graph primitives (meshes,
curve line objects, resize-handle circles) are modelled by the data the
code stores about them (presence markers, positions and names); the
renderer itself is an external collaborator.  External coordinate
transforms (`toScreenXY`, `toObjectCoordinates`) and the GUI dropdown
reads are passed in through an `Env` record of pure functions, matching
the spec's "coordinate contract with the rendering collaborator".
-/

namespace NESTApp

/-- A 2-D point (screen or scene coordinates). -/
structure Pt where
  x : ℚ
  y : ℚ
deriving DecidableEq

/-- A 3-D point, as read from a layer's stride-3 position buffer. -/
structure Pt3 where
  x : ℚ
  y : ℚ
  z : ℚ
deriving DecidableEq

/-- One record of `this.curves` in `selectionBox.js`: the four control
points of the Catmull-Rom connector curve and its `target` device name
(`""` while unattached).  The rendered polyline (`curveObject`) is a
deterministic resample of the control points and is not duplicated here. -/
structure Curve where
  p0 : Pt
  p1 : Pt
  p2 : Pt
  p3 : Pt
  target : String
deriving DecidableEq

/-- The `SelectionBox` entity of `selectionBox.js`.  `box`,
`currentCurveObject` are presence markers for the scene-graph objects the
code stores in those properties; `resizePoints` keeps the position and
name of each handle mesh.  `curveObject` mirrors the property of that
name that `controls.js` reads on a `SelectionBox` (`boxInFocus.curveObject`):
no code in the sources ever assigns it, so it is `none` at construction
and stays `none`. -/
structure SelectionBox where
  layerName : String
  ll : Pt
  ur : Pt
  selectedNeuronType : Option String
  selectedSynModel : Option String
  selectedShape : String
  box : Option Unit
  resizePoints : List (Pt × String)
  currentCurveObject : Option Unit
  curveObject : Option Unit
  curves : List Curve
  selectedPointIDs : List Nat
deriving DecidableEq

/-- `withinRectangleBounds` (selectionBox.js:441-444):
`pos.x >= ll.x && pos.x <= ur.x && pos.y >= ll.y && pos.y <= ur.y`. -/
def withinRectangleBounds (b : SelectionBox) (pos : Pt) : Bool :=
  decide (b.ll.x ≤ pos.x) && decide (pos.x ≤ b.ur.x) &&
  decide (b.ll.y ≤ pos.y) && decide (pos.y ≤ b.ur.y)

/-- `withinEllipticalBounds` (selectionBox.js:446-453), with the local
variables `x_side = (ur.x - ll.x)/2`, `y_side = (ur.y - ll.y)/2` and
`center = ((ur.x + ll.x)/2, (ur.y + ll.y)/2)` inlined. -/
def withinEllipticalBounds (b : SelectionBox) (pos : Pt) : Bool :=
  decide
    ((pos.x - (b.ur.x + b.ll.x) / 2) ^ 2 / ((b.ur.x - b.ll.x) / 2 * ((b.ur.x - b.ll.x) / 2)) +
     (pos.y - (b.ur.y + b.ll.y) / 2) ^ 2 / ((b.ur.y - b.ll.y) / 2 * ((b.ur.y - b.ll.y) / 2)) ≤ 1)

/-- `withinBounds` (selectionBox.js:429-439): dispatches on the shape
string; for any other shape the JS function falls through both branches
and returns `undefined`, modelled as `none`. -/
def withinBounds (b : SelectionBox) (pos : Pt) : Option Bool :=
  if b.selectedShape = "Rectangle" then
    some (withinRectangleBounds b pos)
  else if b.selectedShape = "Ellipse" then
    some (withinEllipticalBounds b pos)
  else
    none

/-- JS truthiness of a `withinBounds` call site (`if (this.withinBounds(p))`):
`undefined` is falsy. -/
def withinBoundsB (b : SelectionBox) (pos : Pt) : Bool :=
  (withinBounds b pos).getD false

/-- One entry of the global `layer_points` map: a stride-3 position
buffer (modelled as a list of 3-D points, the point at list index `k`
having flat buffer index `3 * k`), the parallel flat `customColor`
buffer, and the per-layer coordinate offset (`offsetts`, as spelled in
the source). -/
structure Layer where
  positions : List Pt3
  colors : List ℚ
  offsetts : Pt
deriving DecidableEq

/-- The external collaborators and GUI reads the controller consumes:
the screen/scene coordinate bridge (`toScreenXY`, `toObjectCoordinates`),
`renderer.getSize().height`, `getSelectedShape()`, the two dropdown
reads, and the global base point color `color`. -/
structure Env where
  toScreenXY : Pt3 → Pt
  toObjectCoordinates : Pt → Pt
  rendererHeight : ℚ
  selectedShape : String
  neuronType : String
  synModel : String
  colorR : ℚ
  colorG : ℚ
  colorB : ℚ

/-- Write an (r,g,b) triple at flat indices `i`, `i+1`, `i+2` of a color
buffer (out-of-range writes are dropped, as on a typed array). -/
def writeColor3 (cols : List ℚ) (i : Nat) (r g b : ℚ) : List ℚ :=
  ((cols.set i r).set (i + 1) g).set (i + 2) b

/-- The inner loop of `selectPoints` (selectionBox.js:46-70) over one
layer's position buffer: `i` is the flat buffer index (incremented by 3
per point).  A matching point is appended to `selectedPointIDs`, painted
with the highlight color (1,0,1), counted in `nSelected`, and claims
`layerName` if it is still empty. -/
def selectScan (env : Env) (lname : String) :
    SelectionBox → List Pt3 → Nat → List ℚ → Int → SelectionBox × List ℚ × Int
  | b, [], _, cols, nSel => (b, cols, nSel)
  | b, p :: ps, i, cols, nSel =>
    if withinBoundsB b (env.toScreenXY p) then
      selectScan env lname
        { b with
            selectedPointIDs := b.selectedPointIDs ++ [i],
            layerName := if b.layerName = "" then lname else b.layerName }
        ps (i + 3) (writeColor3 cols i 1 0 1) (nSel + 1)
    else
      selectScan env lname b ps (i + 3) cols nSel

/-- The outer loop of `selectPoints` (selectionBox.js:38-76) over all
layers of `layer_points`, threading the box, the per-layer color buffers
and the global `nSelected` counter. -/
def selectPointsLayers (env : Env) :
    SelectionBox → List (String × Layer) → Int →
      SelectionBox × List (String × Layer) × Int
  | b, [], nSel => (b, [], nSel)
  | b, (lname, ly) :: rest, nSel =>
    let r := selectScan env lname b ly.positions 0 ly.colors nSel
    let r2 := selectPointsLayers env r.1 rest r.2.2
    (r2.1, (lname, { ly with colors := r.2.1 }) :: r2.2.1, r2.2.2)

/-- The field state of `new SelectionBox(ll, ur, shape)` right before the
constructor calls `selectPoints` (selectionBox.js:8-31). -/
def SelectionBox.mk0 (ll ur : Pt) (shape : String) : SelectionBox :=
  { layerName := "", ll := ll, ur := ur,
    selectedNeuronType := none, selectedSynModel := none,
    selectedShape := shape, box := none, resizePoints := [],
    currentCurveObject := none, curveObject := none, curves := [],
    selectedPointIDs := [] }

/-- `new SelectionBox(ll, ur, shape)`: construct the box and run
`selectPoints` on the global layer map and selected-point counter. -/
def newSelectionBox (env : Env) (ll ur : Pt) (shape : String)
    (layers : List (String × Layer)) (nSel : Int) :
    SelectionBox × List (String × Layer) × Int :=
  selectPointsLayers env (SelectionBox.mk0 ll ur shape) layers nSel

/-- Specification-side description of a membership scan: the flat buffer
indices (starting at `i`, stride 3) of the points whose projected screen
position satisfies the box's `withinBounds` test. -/
def matchingIds (env : Env) (b : SelectionBox) : List Pt3 → Nat → List Nat
  | [], _ => []
  | p :: ps, i =>
    if withinBoundsB b (env.toScreenXY p) then i :: matchingIds env b ps (i + 3)
    else matchingIds env b ps (i + 3)

/-- The first loop of `updateColors` (selectionBox.js:94-103), also used
by `removeBox` (selectionBox.js:204-213): repaint every previously
selected id with the base color and decrement `nSelected` once per id. -/
def unhighlight (env : Env) : List Nat → List ℚ → Int → List ℚ × Int
  | [], cols, nSel => (cols, nSel)
  | id :: rest, cols, nSel =>
    unhighlight env rest (writeColor3 cols id env.colorR env.colorG env.colorB) (nSel - 1)

/-- The second loop of `updateColors` (selectionBox.js:105-120): rescan
the layer's position buffer, collecting matching flat indices into a
fresh `newPoints` list, highlighting them and incrementing `nSelected`. -/
def rescan (env : Env) (b : SelectionBox) :
    List Pt3 → Nat → List Nat → List ℚ → Int → List Nat × List ℚ × Int
  | [], _, newPts, cols, nSel => (newPts, cols, nSel)
  | p :: ps, i, newPts, cols, nSel =>
    if withinBoundsB b (env.toScreenXY p) then
      rescan env b ps (i + 3) (newPts ++ [i]) (writeColor3 cols i 1 0 1) (nSel + 1)
    else
      rescan env b ps (i + 3) newPts cols nSel

/-- `layer_points[name]` as an association-list lookup. -/
def lookupLayer (layers : List (String × Layer)) (name : String) : Option Layer :=
  (layers.find? (fun e => e.1 == name)).map Prod.snd

/-- Store back a mutated layer under its name. -/
def setLayer (layers : List (String × Layer)) (name : String) (ly : Layer) :
    List (String × Layer) :=
  layers.map (fun e => if e.1 == name then (e.1, ly) else e)

/-- `updateColors` (selectionBox.js:79-129).  The source indexes
`layer_points[this.layerName]` unconditionally; a missing layer is a
hard fault there, modelled as the identity result (theorems about
`updateColors` hypothesize the layer exists). -/
def updateColors (env : Env) (b : SelectionBox) (layers : List (String × Layer))
    (nSel : Int) : SelectionBox × List (String × Layer) × Int :=
  match lookupLayer layers b.layerName with
  | none => (b, layers, nSel)
  | some ly =>
    let u := unhighlight env b.selectedPointIDs ly.colors nSel
    let r := rescan env b ly.positions 0 [] u.1 u.2
    ({ b with selectedPointIDs := r.1 },
     setLayer layers b.layerName { ly with colors := r.2.1 },
     r.2.2)

/-- `removeBox` (selectionBox.js:191-220): un-highlight the box's
selected points in its layer's color buffer and decrement `nSelected`
per id (scene removal of the fill mesh is a renderer concern).  The
source reads `layer_points[this.layerName].points` unconditionally
(selectionBox.js:195): when `layerName` is not a key of `layer_points`
this raises a TypeError before any color or counter mutation, which
aborts the calling handler — modelled as `none`. -/
def removeBoxColors (env : Env) (b : SelectionBox) (layers : List (String × Layer))
    (nSel : Int) : Option (List (String × Layer) × Int) :=
  match lookupLayer layers b.layerName with
  | none => none
  | some ly =>
    let u := unhighlight env b.selectedPointIDs ly.colors nSel
    some (setLayer layers b.layerName { ly with colors := u.1 }, u.2)

/-- A concrete environment for witnesses and counterexamples: the screen
projection drops `z`, the screen/scene transform is the identity. -/
def envW : Env :=
  { toScreenXY := fun p => ⟨p.x, p.y⟩,
    toObjectCoordinates := fun p => p,
    rendererHeight := 600,
    selectedShape := "Rectangle",
    neuronType := "iaf_psc_alpha",
    synModel := "static_synapse",
    colorR := 1/2, colorG := 1/2, colorB := 1/2 }

/-- A concrete one-point layer (point at the origin). -/
def layerPt : Layer :=
  { positions := [⟨0, 0, 0⟩], colors := [0, 0, 0], offsetts := ⟨0, 0⟩ }

/-- A concrete two-point layer. -/
def layerW : Layer :=
  { positions := [⟨0, 0, 0⟩, ⟨5, 5, 0⟩], colors := [0, 0, 0, 0, 0, 0],
    offsetts := ⟨0, 0⟩ }

/-- A concrete box over `layerW` selecting its first point. -/
def boxW : SelectionBox :=
  { SelectionBox.mk0 ⟨-1, -1⟩ ⟨1, 1⟩ "Rectangle" with
      layerName := "A", selectedPointIDs := [0] }

/-- `getSelectionBounds` (selectionBox.js:320-334): both corners through
`toObjectCoordinates`, with the y sign flipped. -/
def getSelectionBounds (env : Env) (b : SelectionBox) : Pt × Pt :=
  (⟨(env.toObjectCoordinates b.ll).x, -(env.toObjectCoordinates b.ll).y⟩,
   ⟨(env.toObjectCoordinates b.ur).x, -(env.toObjectCoordinates b.ur).y⟩)

/-- `makeSelectionPoints` (selectionBox.js:371-404): push the 8 named
handle positions (4 corners, 4 edge midpoints) computed from the current
selection bounds. -/
def makeSelectionPoints (env : Env) (b : SelectionBox) : SelectionBox :=
  { b with resizePoints := b.resizePoints ++ [
      (⟨(getSelectionBounds env b).1.x, (getSelectionBounds env b).1.y⟩, "lowerLeft"),
      (⟨((getSelectionBounds env b).1.x + (getSelectionBounds env b).2.x) / 2,
        (getSelectionBounds env b).1.y⟩, "lowerMiddle"),
      (⟨(getSelectionBounds env b).2.x, (getSelectionBounds env b).1.y⟩, "lowerRight"),
      (⟨(getSelectionBounds env b).2.x,
        ((getSelectionBounds env b).1.y + (getSelectionBounds env b).2.y) / 2⟩, "middleRight"),
      (⟨(getSelectionBounds env b).2.x, (getSelectionBounds env b).2.y⟩, "upperRight"),
      (⟨((getSelectionBounds env b).1.x + (getSelectionBounds env b).2.x) / 2,
        (getSelectionBounds env b).2.y⟩, "upperMiddle"),
      (⟨(getSelectionBounds env b).1.x, (getSelectionBounds env b).2.y⟩, "upperLeft"),
      (⟨(getSelectionBounds env b).1.x,
        ((getSelectionBounds env b).1.y + (getSelectionBounds env b).2.y) / 2⟩, "middleLeft")] }

/-- `makeLine` (selectionBox.js:222-240): create a connector whose four
control points all start at the right-edge midpoint of the selection
bounds, with empty `target`, push it onto `curves`, and record the new
line object in `currentCurveObject`. -/
def makeLine (env : Env) (b : SelectionBox) : SelectionBox :=
  { b with
      currentCurveObject := some (),
      curves := b.curves ++ [{
        p0 := ⟨(getSelectionBounds env b).2.x,
               ((getSelectionBounds env b).1.y + (getSelectionBounds env b).2.y) / 2⟩,
        p1 := ⟨(getSelectionBounds env b).2.x,
               ((getSelectionBounds env b).1.y + (getSelectionBounds env b).2.y) / 2⟩,
        p2 := ⟨(getSelectionBounds env b).2.x,
               ((getSelectionBounds env b).1.y + (getSelectionBounds env b).2.y) / 2⟩,
        p3 := ⟨(getSelectionBounds env b).2.x,
               ((getSelectionBounds env b).1.y + (getSelectionBounds env b).2.y) / 2⟩,
        target := "" }] }

/-- `setLineTarget` (selectionBox.js:242-245): assign `target` of the
last curve (`curves[curves.length - 1]`). -/
def setLineTarget (b : SelectionBox) (device : String) : SelectionBox :=
  { b with curves := b.curves.dropLast ++
      ((b.curves.getLast?).map (fun c => { c with target := device })).toList }

/-- `updateLineStart` (selectionBox.js:247-265): for every curve, move
control point 0 to `newPos` and control point 1 to `(newPos.x + 0.05,
newPos.y)` (the polyline resample is a renderer concern). -/
def updateLineStart (b : SelectionBox) (newPos : Pt) : SelectionBox :=
  { b with curves := b.curves.map (fun c =>
      { c with p0 := newPos, p1 := ⟨newPos.x + 1/20, newPos.y⟩ }) }

/-- `updateLineEnd` (selectionBox.js:267-291): for every curve whose
`target` equals the given one, set control point 1's x to `p0.x + 0.05`,
control point 2 to `(newPos.x - 0.05, newPos.y)` and control point 3 to
`newPos`. -/
def updateLineEnd (b : SelectionBox) (newPos : Pt) (target : String) : SelectionBox :=
  { b with curves := b.curves.map (fun c =>
      if c.target == target then
        { c with
            p1 := ⟨c.p0.x + 1/20, c.p1.y⟩,
            p2 := ⟨newPos.x - 1/20, newPos.y⟩,
            p3 := newPos }
      else c) }

/-- `removeLine` (selectionBox.js:293-297): pop the last curve. -/
def removeLine (b : SelectionBox) : SelectionBox :=
  { b with curves := b.curves.dropLast }

/-- `removeLines()` with the default empty target
(selectionBox.js:299-318): drop every curve. -/
def removeAllLines (b : SelectionBox) : SelectionBox :=
  { b with curves := [] }

/-- The serialized selection payload built by `getSelectionInfo`
(selectionBox.js:336-369). -/
structure SelectionInfo where
  name : String
  ll : Pt3
  ur : Pt3
  neuronType : String
  synModel : String
  maskShape : String
deriving DecidableEq

/-- `getSelectionInfo` (selectionBox.js:336-369): corners through
`toObjectCoordinates`, shifted by the layer's `offsetts` and y-flipped.
The source reads `layer_points[this.layerName].offsetts` unconditionally
(a missing layer is a hard fault); a zero offset stands in for the
missing-layer case, which callers exclude. -/
def getSelectionInfo (env : Env) (b : SelectionBox) (layers : List (String × Layer)) :
    SelectionInfo :=
  { name := b.layerName,
    ll := ⟨(env.toObjectCoordinates b.ll).x -
             (((lookupLayer layers b.layerName).map Layer.offsetts).getD ⟨0, 0⟩).x,
           -((env.toObjectCoordinates b.ll).y -
             (((lookupLayer layers b.layerName).map Layer.offsetts).getD ⟨0, 0⟩).y),
           0⟩,
    ur := ⟨(env.toObjectCoordinates b.ur).x -
             (((lookupLayer layers b.layerName).map Layer.offsetts).getD ⟨0, 0⟩).x,
           -((env.toObjectCoordinates b.ur).y -
             (((lookupLayer layers b.layerName).map Layer.offsetts).getD ⟨0, 0⟩).y),
           0⟩,
    neuronType := env.neuronType,
    synModel := env.synModel,
    maskShape := b.selectedShape }

/-- Modelled from the spec: `findBounds` is called by the marquee commit
(controls.js:270) but defined outside the provided sources.  The spec
says the commit normalizes "the two corners from the signed drag", so it
returns the componentwise minimum as `ll` and maximum as `ur`. -/
def findBounds (pos1 pos2 : Pt) : Pt × Pt :=
  (⟨min pos1.x pos2.x, min pos1.y pos2.y⟩, ⟨max pos1.x pos2.x, max pos1.y pos2.y⟩)

/-- A draggable device marker as the ray-caster reports it: its `name`,
scene `position` and bounding-sphere `radius`. -/
structure DragObj where
  name : String
  position : Pt
  radius : ℚ
deriving DecidableEq

/-- The fields of a DOM mouse event that the controller reads. -/
structure MouseEvent where
  clientX : ℚ
  clientY : ℚ
  shiftKey : Bool
  targetIsCanvas : Bool
deriving DecidableEq

/-- The closure state of `Controls` (controls.js:7-27) plus the globals
it manipulates.  JS object references are modelled by numeric ids into
the `boxes` heap: `selectionBoxArray`, `boxInFocus` and the
`deviceBoxMap` lists store ids, so aliasing behaves as in the source.
`emitted` records the serialized selection payloads POSTed to the
network collaborator. -/
structure EditorState where
  boxes : List (Nat × SelectionBox)
  nextId : Nat
  selectionBoxArray : List Nat
  boxInFocus : Option Nat
  resizeSideInFocus : Option String
  deviceBoxMap : List (String × List Nat)
  nSelected : Int
  layers : List (String × Layer)
  emitted : List SelectionInfo
  mouseDown : Bool
  shiftDown : Bool
  make_selection_box : Bool
  make_connection : Bool
  object_selected : Option String
  layerSelected : String
  mouseDownCoords : Pt
  mRelPos : Pt
deriving DecidableEq

/-- Dereference a box id. -/
def getBox (s : EditorState) (id : Nat) : Option SelectionBox :=
  (s.boxes.find? (fun e => e.1 == id)).map Prod.snd

/-- Write through a box reference: mutate the heap entry with this id. -/
def setBox (s : EditorState) (id : Nat) (b : SelectionBox) : EditorState :=
  { s with boxes := s.boxes.map (fun e => if e.1 == id then (e.1, b) else e) }

/-- `resetButtons` (controls.js:40-51).  (The marquee fade-out is a DOM
concern; `boxInFocus`, `resizeSideInFocus` and `object_selected` are NOT
reset here, exactly as in the source.) -/
def resetButtons (s : EditorState) : EditorState :=
  { s with
      mouseDown := false, shiftDown := false,
      make_selection_box := false, make_connection := false,
      mouseDownCoords := ⟨0, 0⟩, mRelPos := ⟨0, 0⟩,
      layerSelected := "" }

/-- `deviceBoxMap[device]`. -/
def lookupDev (m : List (String × List Nat)) (name : String) : Option (List Nat) :=
  (m.find? (fun e => e.1 == name)).map Prod.snd

/-- The `indexOf` / `index > -1` / `splice(index, 1)` idiom of `onKeyUp`
(controls.js:377-389): remove the first occurrence, if any. -/
def spliceOut (l : List Nat) (id : Nat) : List Nat :=
  if l.contains id then l.eraseIdx (l.indexOf id) else l

/-- The `else` part of `onMouseDown` (controls.js:91-139) reached after
the focused-box handle test: shift-drag pickup, else the focus scan over
`selectionBoxArray` in creation order, else start a marquee
(`make_selection_box = true`).  `dragHits` is the external ray-caster's
result against the draggable objects. -/
def mouseDownRest (env : Env) (ev : MouseEvent) (dragHits : List DragObj)
    (s : EditorState) : EditorState :=
  if ev.shiftKey then
    match dragHits with
    | t :: _ => { s with shiftDown := true, object_selected := some t.name }
    | [] => { s with shiftDown := true }
  else
    match s.selectionBoxArray.find? (fun id =>
        match getBox s id with
        | some b => withinBoundsB b ⟨s.mouseDownCoords.x,
            env.rendererHeight - s.mouseDownCoords.y⟩
        | none => false) with
    | some id =>
      match getBox s id with
      | none => s
      | some b =>
        if b.curveObject = none then
          setBox { s with boxInFocus := some id, make_connection := true } id
            (makeSelectionPoints env (makeLine env b))
        else
          setBox { s with boxInFocus := some id } id (makeSelectionPoints env b)
    | none => { s with make_selection_box := true }

/-- `onMouseDown` (controls.js:54-141).  `handleHits` is the external
ray-caster's result against the focused box's resize handles. -/
def onMouseDown (env : Env) (ev : MouseEvent) (handleHits : List String)
    (dragHits : List DragObj) (s0 : EditorState) : EditorState :=
  if ev.targetIsCanvas then
    let s := { s0 with mouseDown := true, mouseDownCoords := ⟨ev.clientX, ev.clientY⟩ }
    match s.boxInFocus with
    | some id =>
      match handleHits with
      | h :: _ => { s with resizeSideInFocus := some h }
      | [] =>
        let s1 :=
          match getBox s id with
          | some b => setBox s id { b with resizePoints := [] }
          | none => s
        mouseDownRest env ev dragHits { s1 with boxInFocus := none }
    | none => mouseDownRest env ev dragHits s
  else s0

/-- The `make_selection_box` branch of `onMouseUp` (controls.js:258-308):
reconstruct the up coordinates from `mRelPos`, normalize with
`findBounds`, construct the `SelectionBox` (which runs `selectPoints`),
push it onto `selectionBoxArray` — and only then test `layerName`: if it
is empty, just `resetButtons` and return; otherwise materialize the fill
and handles, record the dropdown metadata, and POST the serialized
selection. -/
def marqueeCommit (env : Env) (s : EditorState) : EditorState :=
  let r := newSelectionBox env
    (findBounds
      ⟨s.mRelPos.x + s.mouseDownCoords.x,
       -s.mRelPos.y + (env.rendererHeight - s.mouseDownCoords.y)⟩
      ⟨s.mouseDownCoords.x, env.rendererHeight - s.mouseDownCoords.y⟩).1
    (findBounds
      ⟨s.mRelPos.x + s.mouseDownCoords.x,
       -s.mRelPos.y + (env.rendererHeight - s.mouseDownCoords.y)⟩
      ⟨s.mouseDownCoords.x, env.rendererHeight - s.mouseDownCoords.y⟩).2
    env.selectedShape s.layers s.nSelected
  let id := s.nextId
  let s1 := { s with
      boxes := s.boxes ++ [(id, r.1)],
      nextId := s.nextId + 1,
      layers := r.2.1,
      nSelected := r.2.2,
      boxInFocus := some id,
      layerSelected := r.1.layerName,
      selectionBoxArray := s.selectionBoxArray ++ [id] }
  if r.1.layerName = "" then
    resetButtons s1
  else
    let b2 := { makeSelectionPoints env { r.1 with box := some () } with
        selectedNeuronType := some env.neuronType,
        selectedSynModel := some env.synModel }
    let s2 := setBox s1 id b2
    resetButtons { s2 with emitted := s2.emitted ++ [getSelectionInfo env b2 s2.layers] }

/-- The `resizeSideInFocus` branch of `onMouseUp` (controls.js:309-329),
entered after `resizeSideInFocus` has been cleared: exchange the corner
coordinates if the drag inverted the box, rebuild the handles, rescan
point membership, and move every connector's start to the new right-edge
midpoint. -/
def resizeCommit (env : Env) (s0 : EditorState) : EditorState :=
  match s0.boxInFocus with
  | none => resetButtons s0
  | some id =>
    match getBox s0 id with
    | none => resetButtons s0
    | some b =>
      let b1 := if b.ll.x > b.ur.x then
          { b with ll := ⟨b.ur.x, b.ll.y⟩, ur := ⟨b.ll.x, b.ur.y⟩ } else b
      let b2 := if b1.ll.y > b1.ur.y then
          { b1 with ll := ⟨b1.ll.x, b1.ur.y⟩, ur := ⟨b1.ur.x, b1.ll.y⟩ } else b1
      let b3 := makeSelectionPoints env { b2 with resizePoints := [] }
      let r := updateColors env b3 s0.layers s0.nSelected
      let b4 := updateLineStart r.1 (env.toObjectCoordinates
        ⟨r.1.ur.x, env.rendererHeight - (r.1.ll.y + r.1.ur.y) / 2⟩)
      resetButtons { setBox s0 id b4 with layers := r.2.1, nSelected := r.2.2 }

/-- The `make_connection` branch of `onMouseUp` (controls.js:330-357):
ray-cast against the draggable objects; on a hit set the last curve's
target, move its end to the hit object's anchor offset by its bounding
radius along x, and register the focused box under the device's
`deviceBoxMap` entry; on a miss pop the in-progress curve. -/
def connectCommit (_env : Env) (dragHits : List DragObj) (s : EditorState) : EditorState :=
  match s.boxInFocus with
  | none => resetButtons s
  | some id =>
    match getBox s id with
    | none => resetButtons s
    | some b =>
      match dragHits with
      | [] => resetButtons (setBox s id (removeLine b))
      | t :: _ =>
        let b2 := updateLineEnd (setLineTarget b t.name)
          ⟨t.position.x - t.radius, t.position.y⟩ t.name
        resetButtons { setBox s id b2 with
          deviceBoxMap := s.deviceBoxMap.map
            (fun e => if e.1 == t.name then (e.1, e.2 ++ [id]) else e) }

/-- `onMouseUp` (controls.js:252-367).  `dragHits` is the ray-caster's
result against the draggable objects at the release point.  Branches in
source order: marquee commit, resize commit, connect commit, shift-drag
release; every branch ends in `resetButtons`.  In the resize and connect
branches the source dereferences `boxInFocus` unconditionally (a missing
focus is a hard fault there, unreachable in the event flow); the model
just resets in that case. -/
def onMouseUp (env : Env) (dragHits : List DragObj) (s : EditorState) : EditorState :=
  if s.make_selection_box then
    marqueeCommit env s
  else if s.resizeSideInFocus.isSome then
    resizeCommit env { s with resizeSideInFocus := none }
  else if s.make_connection then
    connectCommit env dragHits s
  else if s.shiftDown then
    resetButtons { s with object_selected := none }
  else
    resetButtons s

/-- `onKeyUp` (controls.js:369-392): on the delete key (code 46) with a
focused box, remove its handles (`removePoints`), restore its points'
colors (`removeBox`), drop all its connectors, splice it out of
`selectionBoxArray` and out of every `deviceBoxMap` entry, and clear the
focus; otherwise do nothing.  When the focused box's `layerName` is not
a key of `layer_points`, `removeBox` throws (selectionBox.js:195) and
the uncaught exception aborts the handler right there: `removePoints`
has already run, but the connectors survive, no splice happens and the
box stays focused. -/
def onKeyUp (env : Env) (keyCode : Nat) (s : EditorState) : EditorState :=
  if keyCode = 46 then
    match s.boxInFocus with
    | none => s
    | some id =>
      match getBox s id with
      | none => s
      | some b =>
        match removeBoxColors env { b with resizePoints := [] } s.layers s.nSelected with
        | none =>
          setBox s id { b with resizePoints := [] }
        | some r =>
          let s1 := setBox s id (removeAllLines { b with resizePoints := [] })
          { s1 with
              layers := r.1,
              nSelected := r.2,
              selectionBoxArray := spliceOut s1.selectionBoxArray id,
              deviceBoxMap := s1.deviceBoxMap.map (fun e => (e.1, spliceOut e.2 id)),
              boxInFocus := none }
  else s

/-- The empty editor state (all collections empty, all flags down). -/
def emptyState : EditorState :=
  { boxes := [], nextId := 0, selectionBoxArray := [], boxInFocus := none,
    resizeSideInFocus := none, deviceBoxMap := [], nSelected := 0, layers := [],
    emitted := [], mouseDown := false, shiftDown := false,
    make_selection_box := false, make_connection := false,
    object_selected := none, layerSelected := "",
    mouseDownCoords := ⟨0, 0⟩, mRelPos := ⟨0, 0⟩ }

/-- A concrete connector curve with all control points at the origin. -/
def curveW : Curve :=
  { p0 := ⟨0, 0⟩, p1 := ⟨0, 0⟩, p2 := ⟨0, 0⟩, p3 := ⟨0, 0⟩, target := "" }

/-- A concrete state in the middle of a Drawing (marquee) gesture over
an empty scene: no layers, so the committed region's `layerName` stays
empty. -/
def sC1 : EditorState :=
  { emptyState with
      make_selection_box := true,
      mouseDownCoords := ⟨100, 100⟩, mRelPos := ⟨10, 10⟩ }

/-- A concrete connector curve already attached to device "dev". -/
def curveDev : Curve :=
  { p0 := ⟨0, 0⟩, p1 := ⟨0, 0⟩, p2 := ⟨0, 0⟩, p3 := ⟨0, 0⟩, target := "dev" }

/-- A concrete box that already owns one connector. -/
def bC3 : SelectionBox :=
  { SelectionBox.mk0 ⟨0, 0⟩ ⟨10, 10⟩ "Rectangle" with
      layerName := "A", curves := [curveDev], currentCurveObject := some () }

/-- A concrete idle state whose only region is `bC3`. -/
def sC3 : EditorState :=
  { emptyState with boxes := [(0, bC3)], selectionBoxArray := [0] }

/-- `sC3` right after the pointer-down bookkeeping, the down point over
the region. -/
def sC3w : EditorState :=
  { sC3 with mouseDown := true, mouseDownCoords := ⟨5, 595⟩ }

/-- A concrete pointer-down event over `bC3` (canvas target, no shift). -/
def evC3 : MouseEvent :=
  { clientX := 5, clientY := 595, shiftKey := false, targetIsCanvas := true }

/-- A concrete box whose drag inverted both corners. -/
def boxC4 : SelectionBox :=
  { SelectionBox.mk0 ⟨5, 7⟩ ⟨2, 3⟩ "Rectangle" with layerName := "A" }

/-- A concrete state in the middle of a Resizing gesture on `boxC4`. -/
def sC4 : EditorState :=
  { emptyState with
      boxes := [(0, boxC4)], selectionBoxArray := [0],
      boxInFocus := some 0, resizeSideInFocus := some "lowerLeft" }

/-- A concrete focused box with one connector to "dev". -/
def bC5 : SelectionBox :=
  { SelectionBox.mk0 ⟨0, 0⟩ ⟨10, 10⟩ "Rectangle" with
      layerName := "A", curves := [curveDev] }

/-- A concrete state with `bC5` focused, its layer "A" present, and the
region referenced once by the adjacency map. -/
def sC5 : EditorState :=
  { emptyState with
      boxes := [(7, bC5)], selectionBoxArray := [7],
      boxInFocus := some 7, deviceBoxMap := [("dev", [7])],
      layers := [("A", layerPt)] }

/-- `sC5` with the adjacency-map entry referencing the region twice. -/
def sC5dup : EditorState :=
  { sC5 with deviceBoxMap := [("dev", [7, 7])] }

/-- `sC5` with no focused region. -/
def sC5none : EditorState :=
  { sC5 with boxInFocus := none }

/-- `sC5` with the layer map empty, so the focused region's layer "A"
is missing and `removeBox` faults. -/
def sC5fault : EditorState :=
  { sC5 with layers := [] }

/-- A concrete box in Connecting state: one in-progress curve with empty
target. -/
def bC8 : SelectionBox :=
  { SelectionBox.mk0 ⟨0, 0⟩ ⟨10, 10⟩ "Rectangle" with
      layerName := "A", curves := [curveW], currentCurveObject := some () }

/-- The device marker of the spec's scenario: anchor (5,0), bounding
radius 0.2. -/
def tC8 : DragObj := { name := "dev", position := ⟨5, 0⟩, radius := 1/5 }

/-- A concrete state mid-Connecting on `bC8`, with "dev" registered in
the adjacency map. -/
def sC8 : EditorState :=
  { emptyState with
      boxes := [(0, bC8)], selectionBoxArray := [0],
      boxInFocus := some 0, make_connection := true,
      deviceBoxMap := [("dev", [])] }

end NESTApp

namespace NESTApp

theorem getBox_resetButtons (s : EditorState) (id : Nat) :
    getBox (resetButtons s) id = getBox s id := rfl

theorem getBox_withLayersN (s : EditorState) (id : Nat)
    (L : List (String × Layer)) (n : Int) :
    getBox { s with layers := L, nSelected := n } id = getBox s id := rfl

theorem getBox_withDeviceBoxMap (s : EditorState) (id : Nat)
    (m : List (String × List Nat)) :
    getBox { s with deviceBoxMap := m } id = getBox s id := rfl

theorem getBox_setBox (s : EditorState) (id : Nat) (b : SelectionBox) :
    getBox (setBox s id b) id = (getBox s id).map (fun _ => b) := by
  have gen : ∀ l : List (Nat × SelectionBox),
      (((l.map (fun e => if e.1 == id then (e.1, b) else e)).find?
          (fun e => e.1 == id)).map Prod.snd) =
        ((l.find? (fun e => e.1 == id)).map Prod.snd).map (fun _ => b) := by
    intro l
    induction l with
    | nil => rfl
    | cons e rest ih =>
      rcases e with ⟨k, v⟩
      by_cases h : k = id
      · subst h
        simp only [List.map_cons, List.find?_cons]
        simp only [beq_self_eq_true, if_true]
        rfl
      · have hb : (k == id) = false := by simp [h]
        simp only [List.map_cons, List.find?_cons, hb, Bool.false_eq_true, if_false]
        exact ih
  exact gen s.boxes

theorem spliceOut_eq_erase (l : List Nat) (id : Nat) :
    spliceOut l id = l.erase id := by
  unfold spliceOut
  by_cases h : l.contains id = true
  · rw [if_pos h, List.eraseIdx_indexOf_eq_erase]
  · rw [if_neg h]
    have hnm : id ∉ l := by simpa using h
    rw [List.erase_of_not_mem hnm]

theorem getLast?_map {α β : Type} (f : α → β) :
    ∀ l : List α, (l.map f).getLast? = (l.getLast?).map f
  | [] => rfl
  | [_] => rfl
  | a :: c :: l => by
    rw [List.map_cons, List.map_cons, List.getLast?_cons_cons, List.getLast?_cons_cons,
      ← List.map_cons]
    exact getLast?_map f (c :: l)

theorem lookupDev_append (m : List (String × List Nat)) (name : String) (id : Nat) :
    lookupDev (m.map (fun e => if e.1 == name then (e.1, e.2 ++ [id]) else e)) name =
      (lookupDev m name).map (fun l => l ++ [id]) := by
  induction m with
  | nil => rfl
  | cons e rest ih =>
    rcases e with ⟨k, v⟩
    by_cases h : k = name
    · subst h
      simp only [lookupDev, List.map_cons, List.find?_cons]
      simp only [beq_self_eq_true, if_true]
      rfl
    · have hb : (k == name) = false := by simp [h]
      simp only [lookupDev, List.map_cons, List.find?_cons, hb, Bool.false_eq_true,
        if_false] at ih ⊢
      exact ih

theorem find?_append_fresh (l : List (Nat × SelectionBox)) (id : Nat) (b : SelectionBox)
    (h : l.find? (fun e => e.1 == id) = none) :
    (l ++ [(id, b)]).find? (fun e => e.1 == id) = some (id, b) := by
  induction l with
  | nil => simp [List.find?]
  | cons e rest ih =>
    rw [List.find?_cons] at h
    rw [List.cons_append, List.find?_cons]
    cases hc : (e.1 == id) with
    | true =>
      simp only [hc] at h
      exact absurd h (by simp)
    | false =>
      simp only [hc] at h ⊢
      exact ih h

theorem updateColors_ll (env : Env) (b : SelectionBox)
    (L : List (String × Layer)) (n : Int) :
    (updateColors env b L n).1.ll = b.ll := by
  unfold updateColors
  cases lookupLayer L b.layerName with
  | none => rfl
  | some ly => rfl

theorem updateColors_ur (env : Env) (b : SelectionBox)
    (L : List (String × Layer)) (n : Int) :
    (updateColors env b L n).1.ur = b.ur := by
  unfold updateColors
  cases lookupLayer L b.layerName with
  | none => rfl
  | some ly => rfl

theorem updateLineStart_ll (b : SelectionBox) (p : Pt) :
    (updateLineStart b p).ll = b.ll := rfl

theorem updateLineStart_ur (b : SelectionBox) (p : Pt) :
    (updateLineStart b p).ur = b.ur := rfl

theorem makeSelectionPoints_ll (env : Env) (b : SelectionBox) :
    (makeSelectionPoints env b).ll = b.ll := rfl

theorem makeSelectionPoints_ur (env : Env) (b : SelectionBox) :
    (makeSelectionPoints env b).ur = b.ur := rfl

theorem makeSelectionPoints_curves (env : Env) (b : SelectionBox) :
    (makeSelectionPoints env b).curves = b.curves := rfl

theorem getBox_withFocusConn (s : EditorState) (id : Nat) (o : Option Nat) (m : Bool) :
    getBox { s with boxInFocus := o, make_connection := m } id = getBox s id := rfl

theorem onMouseUp_marquee (env : Env) (dragHits : List DragObj) (s : EditorState)
    (h : s.make_selection_box = true) :
    onMouseUp env dragHits s = marqueeCommit env s := by
  unfold onMouseUp
  rw [h]
  simp

theorem onMouseUp_resize (env : Env) (dragHits : List DragObj) (s : EditorState)
    (h1 : s.make_selection_box = false) (h2 : s.resizeSideInFocus.isSome = true) :
    onMouseUp env dragHits s = resizeCommit env { s with resizeSideInFocus := none } := by
  unfold onMouseUp
  rw [h1, h2]
  simp

theorem onMouseUp_connect (env : Env) (dragHits : List DragObj) (s : EditorState)
    (h1 : s.make_selection_box = false) (h2 : s.resizeSideInFocus.isSome = false)
    (h3 : s.make_connection = true) :
    onMouseUp env dragHits s = connectCommit env dragHits s := by
  unfold onMouseUp
  rw [h1, h2, h3]
  simp

theorem withinBoundsB_congr (b₁ b₂ : SelectionBox) (h1 : b₁.ll = b₂.ll)
    (h2 : b₁.ur = b₂.ur) (h3 : b₁.selectedShape = b₂.selectedShape) (p : Pt) :
    withinBoundsB b₁ p = withinBoundsB b₂ p := by
  simp only [withinBoundsB, withinBounds, withinRectangleBounds,
    withinEllipticalBounds, h1, h2, h3]

theorem matchingIds_congr (env : Env) (b₁ b₂ : SelectionBox) (h1 : b₁.ll = b₂.ll)
    (h2 : b₁.ur = b₂.ur) (h3 : b₁.selectedShape = b₂.selectedShape) :
    ∀ (ps : List Pt3) (i : Nat), matchingIds env b₁ ps i = matchingIds env b₂ ps i := by
  intro ps
  induction ps with
  | nil => intro i; rfl
  | cons p ps ih =>
    intro i
    simp only [matchingIds, withinBoundsB_congr b₁ b₂ h1 h2 h3 (env.toScreenXY p), ih]

theorem selectScan_spec (env : Env) (lname : String) :
    ∀ (ps : List Pt3) (b : SelectionBox) (i : Nat) (cols : List ℚ) (nSel : Int),
      (selectScan env lname b ps i cols nSel).1.ll = b.ll ∧
      (selectScan env lname b ps i cols nSel).1.ur = b.ur ∧
      (selectScan env lname b ps i cols nSel).1.selectedShape = b.selectedShape ∧
      (selectScan env lname b ps i cols nSel).1.selectedPointIDs =
        b.selectedPointIDs ++ matchingIds env b ps i ∧
      (selectScan env lname b ps i cols nSel).2.2 =
        nSel + (matchingIds env b ps i).length := by
  intro ps
  induction ps with
  | nil =>
    intro b i cols nSel
    simp [selectScan, matchingIds]
  | cons p ps ih =>
    intro b i cols nSel
    by_cases h : withinBoundsB b (env.toScreenXY p) = true
    · have hstep : selectScan env lname b (p :: ps) i cols nSel =
          selectScan env lname
            { b with
                selectedPointIDs := b.selectedPointIDs ++ [i],
                layerName := if b.layerName = "" then lname else b.layerName }
            ps (i + 3) (writeColor3 cols i 1 0 1) (nSel + 1) := by
        rw [selectScan, if_pos h]
      have hm : matchingIds env b (p :: ps) i = i :: matchingIds env b ps (i + 3) := by
        rw [matchingIds, if_pos h]
      obtain ⟨e1, e2, e3, e4, e5⟩ := ih
        { b with
            selectedPointIDs := b.selectedPointIDs ++ [i],
            layerName := if b.layerName = "" then lname else b.layerName }
        (i + 3) (writeColor3 cols i 1 0 1) (nSel + 1)
      have hcongr : matchingIds env
          { b with
              selectedPointIDs := b.selectedPointIDs ++ [i],
              layerName := if b.layerName = "" then lname else b.layerName }
          ps (i + 3) = matchingIds env b ps (i + 3) :=
        matchingIds_congr env
          { b with
              selectedPointIDs := b.selectedPointIDs ++ [i],
              layerName := if b.layerName = "" then lname else b.layerName }
          b rfl rfl rfl ps (i + 3)
      refine ⟨?_, ?_, ?_, ?_, ?_⟩
      · rw [hstep, e1]
      · rw [hstep, e2]
      · rw [hstep, e3]
      · rw [hstep, e4, hcongr, hm]
        simp [List.append_assoc]
      · rw [hstep, e5, hcongr, hm]
        simp only [List.length_cons]
        push_cast
        ring
    · have hstep : selectScan env lname b (p :: ps) i cols nSel =
          selectScan env lname b ps (i + 3) cols nSel := by
        rw [selectScan, if_neg h]
      have hm : matchingIds env b (p :: ps) i = matchingIds env b ps (i + 3) := by
        rw [matchingIds, if_neg h]
      obtain ⟨e1, e2, e3, e4, e5⟩ := ih b (i + 3) cols nSel
      exact ⟨by rw [hstep, e1], by rw [hstep, e2], by rw [hstep, e3],
        by rw [hstep, e4, hm], by rw [hstep, e5, hm]⟩

theorem selectPointsLayers_spec (env : Env) :
    ∀ (Ls : List (String × Layer)) (b : SelectionBox) (nSel : Int),
      (selectPointsLayers env b Ls nSel).1.ll = b.ll ∧
      (selectPointsLayers env b Ls nSel).1.ur = b.ur ∧
      (selectPointsLayers env b Ls nSel).1.selectedShape = b.selectedShape ∧
      (selectPointsLayers env b Ls nSel).1.selectedPointIDs =
        b.selectedPointIDs ++
          (Ls.map (fun e => matchingIds env b e.2.positions 0)).flatten := by
  intro Ls
  induction Ls with
  | nil =>
    intro b nSel
    simp [selectPointsLayers]
  | cons e rest ih =>
    intro b nSel
    obtain ⟨lname, ly⟩ := e
    obtain ⟨s1, s2, s3, s4, s5⟩ := selectScan_spec env lname ly.positions b 0 ly.colors nSel
    obtain ⟨r1, r2, r3, r4⟩ := ih (selectScan env lname b ly.positions 0 ly.colors nSel).1
      (selectScan env lname b ly.positions 0 ly.colors nSel).2.2
    have hstep : selectPointsLayers env b ((lname, ly) :: rest) nSel =
        ((selectPointsLayers env (selectScan env lname b ly.positions 0 ly.colors nSel).1
            rest (selectScan env lname b ly.positions 0 ly.colors nSel).2.2).1,
         (lname, { ly with colors := (selectScan env lname b ly.positions 0 ly.colors nSel).2.1 }) ::
           (selectPointsLayers env (selectScan env lname b ly.positions 0 ly.colors nSel).1
             rest (selectScan env lname b ly.positions 0 ly.colors nSel).2.2).2.1,
         (selectPointsLayers env (selectScan env lname b ly.positions 0 ly.colors nSel).1
           rest (selectScan env lname b ly.positions 0 ly.colors nSel).2.2).2.2) := by
      rw [selectPointsLayers]
    have hfun : (fun e : String × Layer =>
        matchingIds env (selectScan env lname b ly.positions 0 ly.colors nSel).1 e.2.positions 0) =
        (fun e : String × Layer => matchingIds env b e.2.positions 0) := by
      funext e
      exact matchingIds_congr env _ b s1 s2 s3 e.2.positions 0
    refine ⟨?_, ?_, ?_, ?_⟩
    · rw [hstep]
      simp only
      rw [r1, s1]
    · rw [hstep]
      simp only
      rw [r2, s2]
    · rw [hstep]
      simp only
      rw [r3, s3]
    · rw [hstep]
      simp only
      rw [r4, hfun, s4, List.map_cons, List.flatten_cons]
      simp [List.append_assoc]

theorem rescan_spec (env : Env) (b : SelectionBox) :
    ∀ (ps : List Pt3) (i : Nat) (acc : List Nat) (cols : List ℚ) (nSel : Int),
      (rescan env b ps i acc cols nSel).1 = acc ++ matchingIds env b ps i ∧
      (rescan env b ps i acc cols nSel).2.2 =
        nSel + (matchingIds env b ps i).length := by
  intro ps
  induction ps with
  | nil =>
    intro i acc cols nSel
    simp [rescan, matchingIds]
  | cons p ps ih =>
    intro i acc cols nSel
    by_cases h : withinBoundsB b (env.toScreenXY p) = true
    · have hstep : rescan env b (p :: ps) i acc cols nSel =
          rescan env b ps (i + 3) (acc ++ [i]) (writeColor3 cols i 1 0 1) (nSel + 1) := by
        rw [rescan, if_pos h]
      have hm : matchingIds env b (p :: ps) i = i :: matchingIds env b ps (i + 3) := by
        rw [matchingIds, if_pos h]
      obtain ⟨e1, e2⟩ := ih (i + 3) (acc ++ [i]) (writeColor3 cols i 1 0 1) (nSel + 1)
      constructor
      · rw [hstep, e1, hm]
        simp [List.append_assoc]
      · rw [hstep, e2, hm]
        simp only [List.length_cons]
        push_cast
        ring
    · have hstep : rescan env b (p :: ps) i acc cols nSel =
          rescan env b ps (i + 3) acc cols nSel := by
        rw [rescan, if_neg h]
      have hm : matchingIds env b (p :: ps) i = matchingIds env b ps (i + 3) := by
        rw [matchingIds, if_neg h]
      obtain ⟨e1, e2⟩ := ih (i + 3) acc cols nSel
      exact ⟨by rw [hstep, e1, hm], by rw [hstep, e2, hm]⟩

theorem unhighlight_spec (env : Env) :
    ∀ (ids : List Nat) (cols : List ℚ) (nSel : Int),
      (unhighlight env ids cols nSel).2 = nSel - ids.length := by
  intro ids
  induction ids with
  | nil =>
    intro cols nSel
    simp [unhighlight]
  | cons id rest ih =>
    intro cols nSel
    rw [unhighlight, ih]
    simp only [List.length_cons]
    push_cast
    ring

theorem lookupLayer_setLayer (L : List (String × Layer)) (name : String) (ly : Layer) :
    lookupLayer (setLayer L name ly) name = (lookupLayer L name).map (fun _ => ly) := by
  induction L with
  | nil => rfl
  | cons e rest ih =>
    rcases e with ⟨k, v⟩
    by_cases h : k = name
    · subst h
      simp only [setLayer, List.map_cons, lookupLayer, List.find?_cons] at ih ⊢
      simp only [beq_self_eq_true, if_true]
      rfl
    · have hb : (k == name) = false := by simp [h]
      simp only [setLayer, List.map_cons, lookupLayer, List.find?_cons] at ih ⊢
      simp only [hb, Bool.false_eq_true, if_false]
      exact ih

theorem updateColors_spec (env : Env) (b : SelectionBox) (L : List (String × Layer))
    (n : Int) (ly : Layer) (h : lookupLayer L b.layerName = some ly) :
    (updateColors env b L n).1 =
      { b with selectedPointIDs := matchingIds env b ly.positions 0 } ∧
    (updateColors env b L n).2.2 =
      n - b.selectedPointIDs.length + (matchingIds env b ly.positions 0).length ∧
    ∃ ly2 : Layer, lookupLayer (updateColors env b L n).2.1 b.layerName = some ly2 ∧
      ly2.positions = ly.positions := by
  obtain ⟨e1, e2⟩ := rescan_spec env b ly.positions 0 []
    (unhighlight env b.selectedPointIDs ly.colors n).1
    (unhighlight env b.selectedPointIDs ly.colors n).2
  have hu := unhighlight_spec env b.selectedPointIDs ly.colors n
  unfold updateColors
  rw [h]
  refine ⟨?_, ?_, ?_⟩
  · simp only
    rw [e1, List.nil_append]
  · simp only
    rw [e2, hu]
  · refine ⟨{ ly with colors := (rescan env b ly.positions 0 []
      (unhighlight env b.selectedPointIDs ly.colors n).1
      (unhighlight env b.selectedPointIDs ly.colors n).2).2.1 }, ?_, rfl⟩
    simp only
    rw [lookupLayer_setLayer, h]
    rfl

/-- Claim C9: point-membership recomputation is idempotent.  For every
region whose layer exists, running `updateColors` a second time with
unchanged bounds (and the same pure projection) leaves
`selectedPointIDs` and the global `nSelected` counter exactly as after
the first run. -/
theorem updateColors_idempotent (env : Env) (b : SelectionBox)
    (L : List (String × Layer)) (n : Int) (ly : Layer)
    (h : lookupLayer L b.layerName = some ly) :
    (updateColors env (updateColors env b L n).1 (updateColors env b L n).2.1
        (updateColors env b L n).2.2).1.selectedPointIDs =
      (updateColors env b L n).1.selectedPointIDs ∧
    (updateColors env (updateColors env b L n).1 (updateColors env b L n).2.1
        (updateColors env b L n).2.2).2.2 = (updateColors env b L n).2.2 := by
  obtain ⟨h1, h2, ly2, h3, h4⟩ := updateColors_spec env b L n ly h
  have hname : (updateColors env b L n).1.layerName = b.layerName := by
    rw [h1]
  have h3a : lookupLayer (updateColors env b L n).2.1
      (updateColors env b L n).1.layerName = some ly2 := by
    rw [hname]
    exact h3
  obtain ⟨g1, g2, _⟩ := updateColors_spec env (updateColors env b L n).1
    (updateColors env b L n).2.1 (updateColors env b L n).2.2 ly2 h3a
  have hgeom : matchingIds env (updateColors env b L n).1 ly2.positions 0 =
      matchingIds env b ly.positions 0 := by
    rw [h4]
    exact matchingIds_congr env (updateColors env b L n).1 b
      (by rw [h1]) (by rw [h1]) (by rw [h1]) ly.positions 0
  constructor
  · simp only [g1]
    rw [hgeom]
    simp only [h1]
  · simp only [g2]
    rw [hgeom]
    simp only [h1]
    omega

/-- Witness for C9 on a concrete layer and box. -/
theorem updateColors_idempotent_witness :
    lookupLayer [("A", layerW)] boxW.layerName = some layerW ∧
    ((updateColors envW (updateColors envW boxW [("A", layerW)] 1).1
        (updateColors envW boxW [("A", layerW)] 1).2.1
        (updateColors envW boxW [("A", layerW)] 1).2.2).1.selectedPointIDs =
      (updateColors envW boxW [("A", layerW)] 1).1.selectedPointIDs ∧
    (updateColors envW (updateColors envW boxW [("A", layerW)] 1).1
        (updateColors envW boxW [("A", layerW)] 1).2.1
        (updateColors envW boxW [("A", layerW)] 1).2.2).2.2 =
      (updateColors envW boxW [("A", layerW)] 1).2.2) :=
  ⟨by decide, updateColors_idempotent envW boxW [("A", layerW)] 1 layerW (by decide)⟩

/-- Claim C2 (amended): after `updateColors`, `selectedPointIDs` exactly
equals the matching flat indices of `layerName`'s layer — no other
layer's index included, no matching index omitted.  After construction
(`selectPoints`), however, `selectedPointIDs` is the concatenation over
ALL layers, in iteration order, of each layer's matching flat indices
(with `layerName` set to the first layer containing a match), so indices
of layers other than `layerName` are retained. -/
theorem selection_membership_characterization :
    (∀ (env : Env) (b : SelectionBox) (L : List (String × Layer)) (n : Int) (ly : Layer),
      lookupLayer L b.layerName = some ly →
      (updateColors env b L n).1.selectedPointIDs = matchingIds env b ly.positions 0) ∧
    (∀ (env : Env) (ll ur : Pt) (shape : String) (L : List (String × Layer)) (n : Int),
      (newSelectionBox env ll ur shape L n).1.selectedPointIDs =
        (L.map (fun e =>
          matchingIds env (SelectionBox.mk0 ll ur shape) e.2.positions 0)).flatten) := by
  constructor
  · intro env b L n ly h
    obtain ⟨h1, _, _⟩ := updateColors_spec env b L n ly h
    rw [h1]
  · intro env ll ur shape L n
    obtain ⟨_, _, _, h4⟩ := selectPointsLayers_spec env L (SelectionBox.mk0 ll ur shape) n
    rw [newSelectionBox, h4]
    rfl

/-- Counterexample to C2 as stated: with two one-point layers "A" and
"B" both overlapping the marquee, construction yields
`selectedPointIDs = [0, 0]` and `layerName = "A"`, whereas the matching
indices of layer "A" alone are `[0]` — an index contributed by layer "B"
is retained. -/
theorem selection_membership_counterexample :
    (newSelectionBox envW ⟨-1, -1⟩ ⟨1, 1⟩ "Rectangle"
        [("A", layerPt), ("B", layerPt)] 0).1.layerName = "A" ∧
    (newSelectionBox envW ⟨-1, -1⟩ ⟨1, 1⟩ "Rectangle"
        [("A", layerPt), ("B", layerPt)] 0).1.selectedPointIDs = [0, 0] ∧
    matchingIds envW (SelectionBox.mk0 ⟨-1, -1⟩ ⟨1, 1⟩ "Rectangle")
        layerPt.positions 0 = [0] := by
  decide

/-- Witness for C2's amended theorem at a concrete input. -/
theorem selection_membership_characterization_witness :
    lookupLayer [("A", layerW)] boxW.layerName = some layerW ∧
    (updateColors envW boxW [("A", layerW)] 1).1.selectedPointIDs =
      matchingIds envW boxW layerW.positions 0 ∧
    (newSelectionBox envW ⟨-1, -1⟩ ⟨1, 1⟩ "Rectangle" [("A", layerW)] 0).1.selectedPointIDs =
      ([("A", layerW)].map (fun e =>
        matchingIds envW (SelectionBox.mk0 ⟨-1, -1⟩ ⟨1, 1⟩ "Rectangle") e.2.positions 0)).flatten :=
  ⟨by decide,
   selection_membership_characterization.1 envW boxW [("A", layerW)] 1 layerW (by decide),
   selection_membership_characterization.2 envW ⟨-1, -1⟩ ⟨1, 1⟩ "Rectangle" [("A", layerW)] 0⟩

end NESTApp

namespace NESTApp

/-- Claim C6: for every Rectangle region with `ll.x ≤ ur.x` and
`ll.y ≤ ur.y`, `withinBounds` returns `true` on all four corners and on
the center, and `false` for any point with either coordinate strictly
outside the closed intervals `[ll.x, ur.x]` and `[ll.y, ur.y]`. -/
theorem rectangle_withinBounds_corners_center_outside
    (b : SelectionBox) (hshape : b.selectedShape = "Rectangle")
    (hx : b.ll.x ≤ b.ur.x) (hy : b.ll.y ≤ b.ur.y) :
    withinBounds b b.ll = some true ∧
    withinBounds b ⟨b.ur.x, b.ll.y⟩ = some true ∧
    withinBounds b b.ur = some true ∧
    withinBounds b ⟨b.ll.x, b.ur.y⟩ = some true ∧
    withinBounds b ⟨(b.ll.x + b.ur.x) / 2, (b.ll.y + b.ur.y) / 2⟩ = some true ∧
    ∀ p : Pt, (p.x < b.ll.x ∨ b.ur.x < p.x ∨ p.y < b.ll.y ∨ b.ur.y < p.y) →
      withinBounds b p = some false := by
  have hc : ∀ p : Pt, withinBounds b p = some (withinRectangleBounds b p) := by
    intro p
    simp [withinBounds, hshape]
  refine ⟨?_, ?_, ?_, ?_, ?_, ?_⟩
  · rw [hc]
    simp [withinRectangleBounds, le_refl, hx, hy]
  · rw [hc]
    simp [withinRectangleBounds, le_refl, hx, hy]
  · rw [hc]
    simp [withinRectangleBounds, le_refl, hx, hy]
  · rw [hc]
    simp [withinRectangleBounds, le_refl, hx, hy]
  · rw [hc]
    simp only [withinRectangleBounds, Option.some.injEq]
    have h1 : b.ll.x ≤ (b.ll.x + b.ur.x) / 2 := by linarith
    have h2 : (b.ll.x + b.ur.x) / 2 ≤ b.ur.x := by linarith
    have h3 : b.ll.y ≤ (b.ll.y + b.ur.y) / 2 := by linarith
    have h4 : (b.ll.y + b.ur.y) / 2 ≤ b.ur.y := by linarith
    simp [h1, h2, h3, h4]
  · intro p hp
    rw [hc]
    simp only [withinRectangleBounds, Option.some.injEq]
    rcases hp with h | h | h | h
    · simp [not_le.mpr h]
    · simp [not_le.mpr h]
    · simp [not_le.mpr h]
    · simp [not_le.mpr h]

/-- Witness for C6 at a concrete rectangle. -/
theorem rectangle_withinBounds_corners_center_outside_witness :
    (let b : SelectionBox :=
      { layerName := "", ll := ⟨1, 2⟩, ur := ⟨5, 6⟩,
        selectedNeuronType := none, selectedSynModel := none,
        selectedShape := "Rectangle", box := none, resizePoints := [],
        currentCurveObject := none, curveObject := none, curves := [],
        selectedPointIDs := [] }
    withinBounds b b.ll = some true ∧
    withinBounds b ⟨b.ur.x, b.ll.y⟩ = some true ∧
    withinBounds b b.ur = some true ∧
    withinBounds b ⟨b.ll.x, b.ur.y⟩ = some true ∧
    withinBounds b ⟨(b.ll.x + b.ur.x) / 2, (b.ll.y + b.ur.y) / 2⟩ = some true ∧
    ∀ p : Pt, (p.x < b.ll.x ∨ b.ur.x < p.x ∨ p.y < b.ll.y ∨ b.ur.y < p.y) →
      withinBounds b p = some false) := by
  exact rectangle_withinBounds_corners_center_outside _ rfl (by norm_num) (by norm_num)

/-- Claim C7: for every Ellipse region with strictly positive
half-extents `rx = (ur.x - ll.x)/2`, `ry = (ur.y - ll.y)/2` and center
`c`, `withinBounds` is the normalized-distance test
`((x-cx)/rx)^2 + ((y-cy)/ry)^2 ≤ 1` with boundary points inside:
`c + (rx, 0)`, `c + (0, ry)` and `c` satisfy it, while
`c + (1.01 rx, 0)` does not. -/
theorem ellipse_withinBounds_normalized_distance
    (b : SelectionBox) (hshape : b.selectedShape = "Ellipse")
    (hx : b.ll.x < b.ur.x) (hy : b.ll.y < b.ur.y) :
    (∀ p : Pt, withinBounds b p = some true ↔
      ((p.x - (b.ur.x + b.ll.x) / 2) / ((b.ur.x - b.ll.x) / 2)) ^ 2 +
      ((p.y - (b.ur.y + b.ll.y) / 2) / ((b.ur.y - b.ll.y) / 2)) ^ 2 ≤ 1) ∧
    withinBounds b ⟨(b.ur.x + b.ll.x) / 2 + (b.ur.x - b.ll.x) / 2,
                    (b.ur.y + b.ll.y) / 2⟩ = some true ∧
    withinBounds b ⟨(b.ur.x + b.ll.x) / 2,
                    (b.ur.y + b.ll.y) / 2 + (b.ur.y - b.ll.y) / 2⟩ = some true ∧
    withinBounds b ⟨(b.ur.x + b.ll.x) / 2, (b.ur.y + b.ll.y) / 2⟩ = some true ∧
    withinBounds b ⟨(b.ur.x + b.ll.x) / 2 + (101 / 100) * ((b.ur.x - b.ll.x) / 2),
                    (b.ur.y + b.ll.y) / 2⟩ = some false := by
  have hrx : (0 : ℚ) < (b.ur.x - b.ll.x) / 2 := by linarith
  have hry : (0 : ℚ) < (b.ur.y - b.ll.y) / 2 := by linarith
  have hrx0 : ((b.ur.x - b.ll.x) / 2) ≠ 0 := ne_of_gt hrx
  have hry0 : ((b.ur.y - b.ll.y) / 2) ≠ 0 := ne_of_gt hry
  have key : ∀ a r : ℚ, (a / r) ^ 2 = a ^ 2 / (r * r) := by
    intro a r
    rw [div_pow, pow_two r]
  have hc : ∀ p : Pt, withinBounds b p = some (withinEllipticalBounds b p) := by
    intro p
    simp [withinBounds, hshape]
  have hform : ∀ p : Pt, withinEllipticalBounds b p = true ↔
      ((p.x - (b.ur.x + b.ll.x) / 2) / ((b.ur.x - b.ll.x) / 2)) ^ 2 +
      ((p.y - (b.ur.y + b.ll.y) / 2) / ((b.ur.y - b.ll.y) / 2)) ^ 2 ≤ 1 := by
    intro p
    simp only [withinEllipticalBounds, decide_eq_true_eq]
    rw [key, key]
  refine ⟨?_, ?_, ?_, ?_, ?_⟩
  · intro p
    rw [hc]
    simp only [Option.some.injEq]
    exact hform p
  · rw [hc]
    simp only [Option.some.injEq]
    rw [hform]
    simp only [add_sub_cancel_left, sub_self]
    rw [div_self hrx0, zero_div]
    norm_num
  · rw [hc]
    simp only [Option.some.injEq]
    rw [hform]
    simp only [add_sub_cancel_left, sub_self]
    rw [div_self hry0, zero_div]
    norm_num
  · rw [hc]
    simp only [Option.some.injEq]
    rw [hform]
    simp only [sub_self]
    rw [zero_div, zero_div]
    norm_num
  · rw [hc]
    simp only [Option.some.injEq]
    rw [Bool.eq_false_iff, Ne, hform]
    simp only [add_sub_cancel_left, sub_self]
    rw [mul_div_assoc, div_self hrx0, mul_one, zero_div]
    norm_num

/-- Witness for C7 at a concrete ellipse. -/
theorem ellipse_withinBounds_normalized_distance_witness :
    (let b : SelectionBox :=
      { layerName := "", ll := ⟨0, 0⟩, ur := ⟨4, 2⟩,
        selectedNeuronType := none, selectedSynModel := none,
        selectedShape := "Ellipse", box := none, resizePoints := [],
        currentCurveObject := none, curveObject := none, curves := [],
        selectedPointIDs := [] }
    (∀ p : Pt, withinBounds b p = some true ↔
      ((p.x - (b.ur.x + b.ll.x) / 2) / ((b.ur.x - b.ll.x) / 2)) ^ 2 +
      ((p.y - (b.ur.y + b.ll.y) / 2) / ((b.ur.y - b.ll.y) / 2)) ^ 2 ≤ 1) ∧
    withinBounds b ⟨(b.ur.x + b.ll.x) / 2 + (b.ur.x - b.ll.x) / 2,
                    (b.ur.y + b.ll.y) / 2⟩ = some true ∧
    withinBounds b ⟨(b.ur.x + b.ll.x) / 2,
                    (b.ur.y + b.ll.y) / 2 + (b.ur.y - b.ll.y) / 2⟩ = some true ∧
    withinBounds b ⟨(b.ur.x + b.ll.x) / 2, (b.ur.y + b.ll.y) / 2⟩ = some true ∧
    withinBounds b ⟨(b.ur.x + b.ll.x) / 2 + (101 / 100) * ((b.ur.x - b.ll.x) / 2),
                    (b.ur.y + b.ll.y) / 2⟩ = some false) := by
  exact ellipse_withinBounds_normalized_distance _ rfl (by norm_num) (by norm_num)

/-- Claim C10: `withinBounds` takes a branch (and so returns a boolean)
exactly when the region's `selectedShape` is `"Rectangle"` or
`"Ellipse"`; for any other shape value it returns no boolean
(`undefined`, modelled as `none`). -/
theorem withinBounds_total_only_on_documented_shapes
    (b : SelectionBox) (p : Pt) :
    (withinBounds b p).isSome = true ↔
      (b.selectedShape = "Rectangle" ∨ b.selectedShape = "Ellipse") := by
  unfold withinBounds
  by_cases h1 : b.selectedShape = "Rectangle"
  · simp [h1]
  · by_cases h2 : b.selectedShape = "Ellipse"
    · simp [h1, h2]
    · simp [h1, h2]

/-- Claim C4: after every pointer-up that ends a Resizing gesture, the
focused region's corners are normalized: `ll.x ≤ ur.x` and
`ll.y ≤ ur.y` hold, even when the drag inverted the box. -/
theorem resize_commit_normalizes (env : Env) (dragHits : List DragObj)
    (s : EditorState) (id : Nat) (b : SelectionBox)
    (hms : s.make_selection_box = false)
    (hr : s.resizeSideInFocus.isSome = true)
    (hf : s.boxInFocus = some id)
    (hb : getBox s id = some b) :
    ∃ b2 : SelectionBox, getBox (onMouseUp env dragHits s) id = some b2 ∧
      b2.ll.x ≤ b2.ur.x ∧ b2.ll.y ≤ b2.ur.y := by
  rw [onMouseUp_resize env dragHits s hms hr]
  have hf0 : ({ s with resizeSideInFocus := none } : EditorState).boxInFocus = some id := hf
  have hb0 : getBox { s with resizeSideInFocus := none } id = some b := hb
  generalize hgen : ({ s with resizeSideInFocus := none } : EditorState) = t at hf0 hb0 ⊢
  unfold resizeCommit
  rw [hf0]
  simp only []
  rw [hb0]
  simp only [getBox_resetButtons, getBox_withLayersN, getBox_setBox, hb0,
    Option.map_some']
  refine ⟨_, rfl, ?_, ?_⟩
  · simp only [updateLineStart_ll, updateLineStart_ur, updateColors_ll, updateColors_ur,
      makeSelectionPoints_ll, makeSelectionPoints_ur]
    split_ifs with h1 h2 h2 <;> (try simp) <;> linarith
  · simp only [updateLineStart_ll, updateLineStart_ur, updateColors_ll, updateColors_ur,
      makeSelectionPoints_ll, makeSelectionPoints_ur]
    split_ifs with h1 h2 h2 <;> (try simp) <;> linarith

/-- Witness for C4: a Resizing pointer-up on a box whose drag inverted
both corners. -/
theorem resize_commit_normalizes_witness :
    (sC4.make_selection_box = false ∧ sC4.resizeSideInFocus.isSome = true ∧
     sC4.boxInFocus = some 0 ∧ getBox sC4 0 = some boxC4) ∧
    (∃ b2 : SelectionBox, getBox (onMouseUp envW [] sC4) 0 = some b2 ∧
      b2.ll.x ≤ b2.ur.x ∧ b2.ll.y ≤ b2.ur.y) :=
  ⟨⟨rfl, rfl, rfl, by decide⟩,
   resize_commit_normalizes envW [] sC4 0 boxC4 rfl rfl rfl (by decide)⟩

theorem getBox_of_boxes_append (X s : EditorState) (id : Nat) (b : SelectionBox)
    (hX : X.boxes = s.boxes ++ [(id, b)]) (h : getBox s id = none) :
    getBox X id = some b := by
  unfold getBox at h ⊢
  rw [hX]
  have hfind : s.boxes.find? (fun e => e.1 == id) = none := by
    cases hx : s.boxes.find? (fun e => e.1 == id) with
    | none => rfl
    | some v => rw [hx] at h; simp at h
  rw [find?_append_fresh s.boxes id b hfind]
  rfl

/-- Claim C1 (amended): a marquee commit whose region has an empty
`layerName` is NOT discarded: the handler pushes the region onto
`selectionBoxArray` before the layer test, and the early return leaves
it there and focused.  What the early return does skip is the fill and
handle materialization, the dropdown metadata, and the network
submission (no payload is emitted), and it resets the gesture flags. -/
theorem marquee_empty_layer_commit (env : Env) (dragHits : List DragObj)
    (s : EditorState)
    (hms : s.make_selection_box = true)
    (hempty : (newSelectionBox env
        (findBounds
          ⟨s.mRelPos.x + s.mouseDownCoords.x,
           -s.mRelPos.y + (env.rendererHeight - s.mouseDownCoords.y)⟩
          ⟨s.mouseDownCoords.x, env.rendererHeight - s.mouseDownCoords.y⟩).1
        (findBounds
          ⟨s.mRelPos.x + s.mouseDownCoords.x,
           -s.mRelPos.y + (env.rendererHeight - s.mouseDownCoords.y)⟩
          ⟨s.mouseDownCoords.x, env.rendererHeight - s.mouseDownCoords.y⟩).2
        env.selectedShape s.layers s.nSelected).1.layerName = "")
    (hfresh : getBox s s.nextId = none) :
    (onMouseUp env dragHits s).selectionBoxArray = s.selectionBoxArray ++ [s.nextId] ∧
    (onMouseUp env dragHits s).boxInFocus = some s.nextId ∧
    (∃ bNew : SelectionBox, getBox (onMouseUp env dragHits s) s.nextId = some bNew ∧
      bNew.layerName = "") ∧
    (onMouseUp env dragHits s).emitted = s.emitted ∧
    (onMouseUp env dragHits s).make_selection_box = false ∧
    (onMouseUp env dragHits s).make_connection = false := by
  rw [onMouseUp_marquee env dragHits s hms]
  unfold marqueeCommit
  rw [if_pos hempty]
  exact ⟨rfl, rfl, ⟨_, getBox_of_boxes_append _ s s.nextId _ rfl hfresh, hempty⟩,
    rfl, rfl, rfl⟩

/-- Counterexample to C1 as stated: committing a marquee over an empty
scene yields a region with empty `layerName`, yet after the handler the
region sits in `selectionBoxArray` (and is still the focused box) — it
is not discarded. -/
theorem marquee_empty_layer_counterexample :
    (onMouseUp envW [] sC1).selectionBoxArray = [0] ∧
    (getBox (onMouseUp envW [] sC1) 0).map SelectionBox.layerName = some "" ∧
    (onMouseUp envW [] sC1).boxInFocus = some 0 := by
  decide

/-- Witness for C1's amended theorem at the concrete marquee state. -/
theorem marquee_empty_layer_commit_witness :
    (sC1.make_selection_box = true ∧
     (newSelectionBox envW
        (findBounds
          ⟨sC1.mRelPos.x + sC1.mouseDownCoords.x,
           -sC1.mRelPos.y + (envW.rendererHeight - sC1.mouseDownCoords.y)⟩
          ⟨sC1.mouseDownCoords.x, envW.rendererHeight - sC1.mouseDownCoords.y⟩).1
        (findBounds
          ⟨sC1.mRelPos.x + sC1.mouseDownCoords.x,
           -sC1.mRelPos.y + (envW.rendererHeight - sC1.mouseDownCoords.y)⟩
          ⟨sC1.mouseDownCoords.x, envW.rendererHeight - sC1.mouseDownCoords.y⟩).2
        envW.selectedShape sC1.layers sC1.nSelected).1.layerName = "" ∧
     getBox sC1 sC1.nextId = none) ∧
    ((onMouseUp envW [] sC1).selectionBoxArray = sC1.selectionBoxArray ++ [sC1.nextId] ∧
     (onMouseUp envW [] sC1).boxInFocus = some sC1.nextId ∧
     (∃ bNew : SelectionBox, getBox (onMouseUp envW [] sC1) sC1.nextId = some bNew ∧
       bNew.layerName = "") ∧
     (onMouseUp envW [] sC1).emitted = sC1.emitted ∧
     (onMouseUp envW [] sC1).make_selection_box = false ∧
     (onMouseUp envW [] sC1).make_connection = false) :=
  ⟨⟨rfl, by decide, by decide⟩,
   marquee_empty_layer_commit envW [] sC1 rfl (by decide) (by decide)⟩

/-- Claim C3 (amended): on a pointer-down that focuses an existing
region (no shift, not a handle hit), `controls.js` guards curve creation
with `boxInFocus.curveObject === undefined` — but no code ever assigns a
`curveObject` property on a `SelectionBox` (the class only sets
`currentCurveObject`), so the guard always passes: a new ConnectorCurve
is created and the Connecting state is entered on EVERY focusing click,
regardless of how many connectors the region already has. -/
theorem focus_click_always_creates_curve (env : Env) (ev : MouseEvent)
    (dragHits : List DragObj) (s : EditorState) (id : Nat) (b : SelectionBox)
    (hshift : ev.shiftKey = false)
    (hfind : s.selectionBoxArray.find? (fun i =>
        match getBox s i with
        | some bx => withinBoundsB bx ⟨s.mouseDownCoords.x,
            env.rendererHeight - s.mouseDownCoords.y⟩
        | none => false) = some id)
    (hb : getBox s id = some b)
    (hguard : b.curveObject = none) :
    (mouseDownRest env ev dragHits s).make_connection = true ∧
    (mouseDownRest env ev dragHits s).boxInFocus = some id ∧
    ∃ b2 : SelectionBox, getBox (mouseDownRest env ev dragHits s) id = some b2 ∧
      b2.curves.length = b.curves.length + 1 ∧
      (b2.curves.getLast?).map Curve.target = some "" := by
  unfold mouseDownRest
  rw [if_neg (by simp [hshift] : ¬ev.shiftKey = true)]
  rw [hfind]
  simp only []
  rw [hb]
  simp only []
  rw [if_pos hguard]
  refine ⟨rfl, rfl, ⟨makeSelectionPoints env (makeLine env b), ?_, ?_, ?_⟩⟩
  · simp only [getBox_setBox, getBox_withFocusConn, hb, Option.map_some']
  · simp only [makeSelectionPoints_curves, makeLine]
    simp [List.length_append]
  · simp only [makeSelectionPoints_curves, makeLine]
    simp only [List.getLast?_concat, Option.map_some']

/-- Counterexample to C3 as stated: clicking a region that already has
one connector still creates a second curve and enters Connecting. -/
theorem focus_click_counterexample :
    ((getBox sC3 0).map (fun b => b.curves.length) = some 1) ∧
    (onMouseDown envW evC3 [] [] sC3).make_connection = true ∧
    ((getBox (onMouseDown envW evC3 [] [] sC3) 0).map (fun b => b.curves.length) =
      some 2) := by
  norm_num [onMouseDown, mouseDownRest, evC3, sC3, emptyState, envW, getBox, setBox,
    bC3, SelectionBox.mk0, withinBoundsB, withinBounds, withinRectangleBounds,
    makeLine, makeSelectionPoints, getSelectionBounds, curveDev, curveW, List.find?]

/-- Witness for C3's amended theorem at the concrete focus click. -/
theorem focus_click_always_creates_curve_witness :
    (evC3.shiftKey = false ∧
     sC3w.selectionBoxArray.find? (fun i =>
        match getBox sC3w i with
        | some bx => withinBoundsB bx ⟨sC3w.mouseDownCoords.x,
            envW.rendererHeight - sC3w.mouseDownCoords.y⟩
        | none => false) = some 0 ∧
     getBox sC3w 0 = some bC3 ∧ bC3.curveObject = none) ∧
    ((mouseDownRest envW evC3 [] sC3w).make_connection = true ∧
     (mouseDownRest envW evC3 [] sC3w).boxInFocus = some 0 ∧
     ∃ b2 : SelectionBox, getBox (mouseDownRest envW evC3 [] sC3w) 0 = some b2 ∧
       b2.curves.length = bC3.curves.length + 1 ∧
       (b2.curves.getLast?).map Curve.target = some "") :=
  ⟨⟨rfl,
    by norm_num [sC3w, sC3, emptyState, envW, getBox, bC3, SelectionBox.mk0,
      withinBoundsB, withinBounds, withinRectangleBounds, curveDev, curveW, List.find?],
    by decide, rfl⟩,
   focus_click_always_creates_curve envW evC3 [] sC3w 0 bC3 rfl
     (by norm_num [sC3w, sC3, emptyState, envW, getBox, bC3, SelectionBox.mk0,
       withinBoundsB, withinBounds, withinRectangleBounds, curveDev, curveW, List.find?])
     (by decide) rfl⟩

theorem setBox_selectionBoxArray (s : EditorState) (id : Nat) (b : SelectionBox) :
    (setBox s id b).selectionBoxArray = s.selectionBoxArray := rfl

theorem setBox_deviceBoxMap (s : EditorState) (id : Nat) (b : SelectionBox) :
    (setBox s id b).deviceBoxMap = s.deviceBoxMap := rfl

theorem not_mem_erase_of_count_le_one (l : List Nat) (id : Nat)
    (h : l.count id ≤ 1) : id ∉ l.erase id := by
  intro hmem
  have h1 : 0 < (l.erase id).count id := List.count_pos_iff.mpr hmem
  have h2 : (l.erase id).count id = l.count id - 1 := List.count_erase_self id l
  omega

/-- Claim C5 (amended): keyboard delete with a focused region whose
layer exists in `layer_points` clears the focus and splices out the
region's FIRST occurrence from `selectionBoxArray` and from each
`deviceBoxMap` entry (the `indexOf` + `splice(index, 1)` idiom): when
each list references the region at most once — which covers
`selectionBoxArray`, where each region is pushed exactly once — this is
full removal, but an adjacency list that references it twice still
references it afterwards.  When the focused region's layer is missing
(reachable via the retained empty-`layerName` region of the marquee
commit), `removeBox` throws and the handler aborts after `removePoints`:
nothing is spliced and the box stays focused.  A delete with no focused
region changes no state. -/
theorem onKeyUp_delete_spec (env : Env) :
    (∀ (s : EditorState) (id : Nat) (b : SelectionBox) (ly : Layer),
      s.boxInFocus = some id → getBox s id = some b →
      lookupLayer s.layers b.layerName = some ly →
      (onKeyUp env 46 s).boxInFocus = none ∧
      (onKeyUp env 46 s).selectionBoxArray = s.selectionBoxArray.erase id ∧
      (s.selectionBoxArray.count id ≤ 1 →
        id ∉ (onKeyUp env 46 s).selectionBoxArray) ∧
      (∀ (d : String) (l : List Nat), (d, l) ∈ s.deviceBoxMap →
        (d, l.erase id) ∈ (onKeyUp env 46 s).deviceBoxMap ∧
        (l.count id ≤ 1 → id ∉ l.erase id))) ∧
    (∀ (s : EditorState) (id : Nat) (b : SelectionBox),
      s.boxInFocus = some id → getBox s id = some b →
      lookupLayer s.layers b.layerName = none →
      onKeyUp env 46 s = setBox s id { b with resizePoints := [] }) ∧
    (∀ s : EditorState, s.boxInFocus = none → onKeyUp env 46 s = s) := by
  refine ⟨?_, ?_, ?_⟩
  · intro s id b ly hf hb hly
    have hly0 : lookupLayer s.layers
        ({ b with resizePoints := [] } : SelectionBox).layerName = some ly := hly
    unfold onKeyUp
    rw [if_pos rfl, hf]
    simp only []
    rw [hb]
    simp only []
    unfold removeBoxColors
    rw [hly0]
    simp only []
    refine ⟨by trivial, ?_, ?_, ?_⟩
    · simp only [setBox_selectionBoxArray]
      exact spliceOut_eq_erase s.selectionBoxArray id
    · intro hcount
      simp only [setBox_selectionBoxArray, spliceOut_eq_erase]
      exact not_mem_erase_of_count_le_one s.selectionBoxArray id hcount
    · intro d l hdl
      refine ⟨?_, fun hcount => not_mem_erase_of_count_le_one l id hcount⟩
      simp only [setBox_deviceBoxMap]
      have hm : ((fun e : String × List Nat => (e.1, spliceOut e.2 id)) (d, l)) ∈
          s.deviceBoxMap.map (fun e => (e.1, spliceOut e.2 id)) :=
        List.mem_map_of_mem _ hdl
      simpa [spliceOut_eq_erase] using hm
  · intro s id b hf hb hly
    have hly0 : lookupLayer s.layers
        ({ b with resizePoints := [] } : SelectionBox).layerName = none := hly
    unfold onKeyUp
    rw [if_pos rfl, hf]
    simp only []
    rw [hb]
    simp only []
    unfold removeBoxColors
    rw [hly0]
  · intro s hf
    unfold onKeyUp
    rw [if_pos rfl, hf]

/-- Counterexample to C5 as stated: a `deviceBoxMap` entry referencing
the focused region twice (its layer present, so the delete path runs)
still references it after the delete — only the first occurrence is
spliced out. -/
theorem onKeyUp_delete_counterexample :
    sC5dup.boxInFocus = some 7 ∧
    lookupLayer sC5dup.layers bC5.layerName = some layerPt ∧
    sC5dup.deviceBoxMap = [("dev", [7, 7])] ∧
    (onKeyUp envW 46 sC5dup).deviceBoxMap = [("dev", [7])] ∧
    (∃ p ∈ (onKeyUp envW 46 sC5dup).deviceBoxMap, 7 ∈ p.2) := by
  refine ⟨rfl, by decide, rfl, by decide, ?_⟩
  exact ⟨("dev", [7]), by decide, by decide⟩

/-- Witness for C5's amended theorem: a singly-referenced region over a
present layer is fully removed everywhere; a missing layer aborts the
handler after `removePoints`; a delete without focus is a no-op. -/
theorem onKeyUp_delete_spec_witness :
    (sC5.boxInFocus = some 7 ∧ getBox sC5 7 = some bC5 ∧
     lookupLayer sC5.layers bC5.layerName = some layerPt) ∧
    ((onKeyUp envW 46 sC5).boxInFocus = none ∧
     (onKeyUp envW 46 sC5).selectionBoxArray = sC5.selectionBoxArray.erase 7 ∧
     (sC5.selectionBoxArray.count 7 ≤ 1 →
       7 ∉ (onKeyUp envW 46 sC5).selectionBoxArray) ∧
     (∀ (d : String) (l : List Nat), (d, l) ∈ sC5.deviceBoxMap →
       (d, l.erase 7) ∈ (onKeyUp envW 46 sC5).deviceBoxMap ∧
       (l.count 7 ≤ 1 → 7 ∉ l.erase 7))) ∧
    (sC5fault.boxInFocus = some 7 ∧ getBox sC5fault 7 = some bC5 ∧
     lookupLayer sC5fault.layers bC5.layerName = none ∧
     onKeyUp envW 46 sC5fault = setBox sC5fault 7 { bC5 with resizePoints := [] }) ∧
    (sC5none.boxInFocus = none ∧ onKeyUp envW 46 sC5none = sC5none) :=
  ⟨⟨rfl, by decide, by decide⟩,
   (onKeyUp_delete_spec envW).1 sC5 7 bC5 layerPt rfl (by decide) (by decide),
   ⟨rfl, by decide, by decide,
    (onKeyUp_delete_spec envW).2.1 sC5fault 7 bC5 rfl (by decide) (by decide)⟩,
   ⟨rfl, (onKeyUp_delete_spec envW).2.2 sC5none rfl⟩⟩

theorem resetButtons_deviceBoxMap (s : EditorState) :
    (resetButtons s).deviceBoxMap = s.deviceBoxMap := rfl

theorem setLineTarget_curves_of_getLast (b : SelectionBox) (dev : String) (c0 : Curve)
    (h : b.curves.getLast? = some c0) :
    (setLineTarget b dev).curves = b.curves.dropLast ++ [{ c0 with target := dev }] := by
  unfold setLineTarget
  rw [h]
  rfl

theorem updateLineEnd_getLast (b : SelectionBox) (p : Pt) (tg : String) (c0 : Curve)
    (h : b.curves.getLast? = some c0) (htg : c0.target = tg) :
    (updateLineEnd b p tg).curves.getLast? =
      some { c0 with
        p1 := ⟨c0.p0.x + 1/20, c0.p1.y⟩,
        p2 := ⟨p.x - 1/20, p.y⟩,
        p3 := p } := by
  unfold updateLineEnd
  simp only []
  rw [getLast?_map, h, Option.map_some']
  have hbeq : (c0.target == tg) = true := by simp [htg]
  simp only [hbeq, if_true]

/-- Claim C8: a Connecting pointer-up that hits a device marker with
anchor `(ax, ay)` and bounding radius `r` sets the connector's target to
the marker's name, registers the focused region under that name in the
adjacency map, and places the connector's last control point at
`(ax - r, ay)`. -/
theorem connect_commit_attaches (env : Env) (s : EditorState) (id : Nat)
    (b : SelectionBox) (t : DragObj) (rest : List DragObj) (l : List Nat)
    (hms : s.make_selection_box = false)
    (hrs : s.resizeSideInFocus.isSome = false)
    (hmc : s.make_connection = true)
    (hf : s.boxInFocus = some id)
    (hb : getBox s id = some b)
    (hne : b.curves ≠ [])
    (hdev : lookupDev s.deviceBoxMap t.name = some l) :
    (∃ b2 : SelectionBox, getBox (onMouseUp env (t :: rest) s) id = some b2 ∧
      ∃ c : Curve, b2.curves.getLast? = some c ∧
        c.target = t.name ∧
        c.p3 = ⟨t.position.x - t.radius, t.position.y⟩) ∧
    lookupDev (onMouseUp env (t :: rest) s).deviceBoxMap t.name = some (l ++ [id]) := by
  obtain ⟨c0, hc0⟩ : ∃ c0, b.curves.getLast? = some c0 := by
    cases hx : b.curves.getLast? with
    | some c0 => exact ⟨c0, rfl⟩
    | none => exact absurd (List.getLast?_eq_none_iff.mp hx) hne
  rw [onMouseUp_connect env (t :: rest) s hms hrs hmc]
  unfold connectCommit
  rw [hf]
  simp only []
  rw [hb]
  simp only []
  have hS : (setLineTarget b t.name).curves.getLast? = some { c0 with target := t.name } := by
    rw [setLineTarget_curves_of_getLast b t.name c0 hc0, List.getLast?_concat]
  constructor
  · refine ⟨updateLineEnd (setLineTarget b t.name)
      ⟨t.position.x - t.radius, t.position.y⟩ t.name, ?_, ?_⟩
    · simp only [getBox_resetButtons, getBox_withDeviceBoxMap, getBox_setBox, hb,
        Option.map_some']
    · exact ⟨_, updateLineEnd_getLast (setLineTarget b t.name)
        ⟨t.position.x - t.radius, t.position.y⟩ t.name
        { c0 with target := t.name } hS rfl, rfl, rfl⟩
  · simp only [resetButtons_deviceBoxMap]
    rw [lookupDev_append, hdev]
    rfl

/-- Witness for C8, the spec's scenario: marker at (5,0), radius 0.2 —
the last control point lands at x = 5 - 1/5. -/
theorem connect_commit_attaches_witness :
    (sC8.make_selection_box = false ∧ sC8.resizeSideInFocus.isSome = false ∧
     sC8.make_connection = true ∧ sC8.boxInFocus = some 0 ∧
     getBox sC8 0 = some bC8 ∧ bC8.curves ≠ [] ∧
     lookupDev sC8.deviceBoxMap tC8.name = some []) ∧
    ((∃ b2 : SelectionBox, getBox (onMouseUp envW [tC8] sC8) 0 = some b2 ∧
      ∃ c : Curve, b2.curves.getLast? = some c ∧
        c.target = "dev" ∧
        c.p3 = ⟨5 - 1/5, 0⟩) ∧
    lookupDev (onMouseUp envW [tC8] sC8).deviceBoxMap "dev" = some ([] ++ [0])) :=
  ⟨⟨rfl, rfl, rfl, rfl, by decide, by decide, by decide⟩,
   connect_commit_attaches envW sC8 0 bC8 tC8 [] [] rfl rfl rfl rfl
     (by decide) (by decide) (by decide)⟩

end NESTApp
